import Mathlib

/-!
Verification of `scripts/sync_from_kaggle_db.py`.

The script merges rows from a source SQLite database (`raceform_kaggle.db`,
opened as `main` on the source connection) into a destination database
(`raceform.db`, attached as `local`).  Its statements, in order:

  1. `SELECT * FROM main.data WHERE race_id || '-' || horse NOT IN
        (SELECT race_id || '-' || horse FROM local.data)`
  2. if no rows: print and fall through to the two `close()` calls
     (no write, no commit);
  3. otherwise `PRAGMA table_info(main.data)` — which is a SQLite SYNTAX
     ERROR (`near ".": syntax error`; the valid spellings are
     `PRAGMA main.table_info(data)` or `PRAGMA table_info(data)`), so every
     run that reaches this line raises `sqlite3.OperationalError` and
     terminates: the `INSERT`, the `commit()` and the `close()` calls below
     are never executed and the destination keeps its pre-run contents.

Checked against SQLite 3.40.1, the run therefore has exactly three
outcomes:
  - the SELECT fails to prepare with `no such column` — this happens
    exactly when `main.data` (the SOURCE) lacks `race_id` or `horse`.  A
    name missing from `local.data` does NOT fail: inside the subquery it
    resolves against the outer `main.data`, making the subquery
    correlated, and the query runs;
  - the SELECT returns no rows: the script prints, commits nothing and
    closes both connections (the only path reaching the `close()` calls);
  - the SELECT returns rows: the script crashes at the malformed PRAGMA
    with nothing written, nothing committed and neither connection closed.

The embedding models SQLite values (NULL / INTEGER / TEXT), `||`
(NULL-propagating concatenation), `NOT IN` (three-valued logic, with the
rule that `NOT IN` over an empty set is true even for a NULL operand), and
subquery name resolution (the subquery's own FROM first, then the outer
query's table).
-/

/-- A SQLite value as it appears in the `data` tables: NULL, an integer,
or a text string.  (Other storage classes are not needed by the claims.) -/
inductive Value where
  | null : Value
  | int : Int → Value
  | text : String → Value
deriving DecidableEq, Repr

/-- A row is the ordered tuple of column values, as fetched by `SELECT *`. -/
abbrev Row := List Value

/-- A relation: ordered column schema plus the stored rows.  `data` in each
database file. -/
structure Table where
  schema : List String
  rows : List Row
deriving DecidableEq, Repr

/-- SQLite column-name resolution within one table: index of the first
column with the given name. -/
def colIdx (schema : List String) (c : String) : Option Nat :=
  match schema with
  | [] => none
  | c0 :: rest => if c0 = c then some 0 else (colIdx rest c).map (· + 1)

/-- Coercion of a value to TEXT for `||`: NULL stays NULL, integers are
rendered in decimal, text is unchanged. -/
def valToText : Value → Option String
  | Value.null => none
  | Value.int n => some (toString n)
  | Value.text s => some s

/-- The key `race_id || '-' || horse` of a row, given resolved column
positions within that row.  NULL (`none`) when either operand is NULL, per
SQLite `||` semantics. -/
def rowKey (ri hi : Nat) (r : Row) : Option String :=
  match valToText (r.getD ri Value.null), valToText (r.getD hi Value.null) with
  | some a, some b => some (a ++ "-" ++ b)
  | _, _ => none

/-- The keys produced by the subquery when both of its column names resolve
to `local.data` (the uncorrelated case). -/
def dstKeys (dst : Table) (di dh : Nat) : List (Option String) :=
  dst.rows.map (rowKey di dh)

/-- SQLite `x NOT IN (keys)` evaluated to "row is selected" (i.e. the WHERE
clause is true; both false and NULL reject the row).  Per the SQLite
documentation: an empty right-hand side gives true even for NULL `x`;
otherwise a NULL `x` gives NULL; a match gives false; a NULL element with
no match gives NULL; otherwise true. -/
def sqlNotIn (x : Option String) (keys : List (Option String)) : Bool :=
  if keys.isEmpty then true
  else
    match x with
    | none => false
    | some k =>
      if some k ∈ keys then false
      else if none ∈ keys then false
      else true

/-- Where a column name used inside the subquery resolves: to column `i` of
the subquery's own table `local.data` (`inner`), or — when `local.data`
lacks the name — to column `i` of the outer query's `main.data` (`outer`),
which makes the subquery correlated. -/
inductive SubRef where
  | inner : Nat → SubRef
  | outer : Nat → SubRef
deriving DecidableEq, Repr

/-- SQLite name resolution for the subquery: the subquery's FROM
(`local.data`, the destination) is searched first; a name absent there
resolves against the outer `main.data` (the source); absent from both,
preparation fails. -/
def resolveSub (src dst : Table) (c : String) : Option SubRef :=
  match colIdx dst.schema c with
  | some i => some (SubRef.inner i)
  | none => (colIdx src.schema c).map SubRef.outer

/-- The value a resolved subquery column reference takes, given the current
outer (source) row `r` and the current inner (destination) row `d`. -/
def subVal (r d : Row) : SubRef → Value
  | SubRef.inner i => d.getD i Value.null
  | SubRef.outer i => r.getD i Value.null

/-- One key produced by the subquery body `race_id || '-' || horse` for
outer row `r` and inner row `d`, with each name resolved per `SubRef`. -/
def subKey (ra rh : SubRef) (r d : Row) : Option String :=
  match valToText (subVal r d ra), valToText (subVal r d rh) with
  | some a, some b => some (a ++ "-" ++ b)
  | _, _ => none

/-- The rows the script's SELECT returns: source rows whose outer key
passes the `NOT IN` test against the subquery's (possibly correlated,
hence per-row) key list. -/
def querySelect (src dst : Table) (si sh : Nat) (ra rh : SubRef) : List Row :=
  src.rows.filter (fun r =>
    sqlNotIn (rowKey si sh r) (dst.rows.map (fun d => subKey ra rh r d)))

/-- The selection in the uncorrelated case, i.e. when `local.data` exposes
both identity columns (at positions `di`, `dh`) so the subquery's key list
does not depend on the outer row. -/
def selectNewRows (src dst : Table) (si sh di dh : Nat) : List Row :=
  src.rows.filter (fun r => sqlNotIn (rowKey si sh r) (dstKeys dst di dh))

/-- The two errors the script can actually raise, both
`sqlite3.OperationalError`: the SELECT fails to prepare with
`no such column` (the source lacks `race_id` or `horse`), or the
malformed `PRAGMA table_info(main.data)` fails with
`near ".": syntax error` on every run whose selection is nonempty. -/
inductive MergeError where
  | noSuchColumn : MergeError
  | pragmaSyntaxError : MergeError
deriving DecidableEq, Repr

/-- The merge operation the script actually performs.  The outer query's
`race_id` and `horse` must resolve in `main.data` (the source) — there is
no outer scope to fall back to — and the subquery's names resolve via
`resolveSub`.  An empty selection is the no-op success (count 0).  A
nonempty selection reaches the malformed PRAGMA and aborts: the program
can never insert a row. -/
def merge (src dst : Table) : Except MergeError (Table × Nat) :=
  match colIdx src.schema "race_id", colIdx src.schema "horse" with
  | some si, some sh =>
    match resolveSub src dst "race_id", resolveSub src dst "horse" with
    | some ra, some rh =>
      let newRows := querySelect src dst si sh ra rh
      if newRows.isEmpty then
        Except.ok (dst, 0)
      else
        Except.error MergeError.pragmaSyntaxError
    | _, _ => Except.error MergeError.noSuchColumn
  | _, _ => Except.error MergeError.noSuchColumn

/-- Observable outcome of one run of the script: final state of both
database files, whether `commit()` ran, whether each `close()` ran, and the
error that propagated (if any). -/
structure RunState where
  src : Table
  dst : Table
  committed : Bool
  srcClosed : Bool
  dstClosed : Bool
  error : Option MergeError
deriving DecidableEq, Repr

/-- One run of the script, top to bottom.  An exception — the SELECT
failing to prepare, or the malformed PRAGMA on a nonempty selection —
propagates: the lines after it, in particular `commit()` and the two
`close()` calls, are not executed and the destination file keeps its
pre-run contents.  Only the empty-selection path reaches the closes.
The source database is only ever read. -/
def scriptRun (src dst : Table) : RunState :=
  match colIdx src.schema "race_id", colIdx src.schema "horse" with
  | some si, some sh =>
    match resolveSub src dst "race_id", resolveSub src dst "horse" with
    | some ra, some rh =>
      let newRows := querySelect src dst si sh ra rh
      if newRows.isEmpty then
        { src := src, dst := dst, committed := false,
          srcClosed := true, dstClosed := true, error := none }
      else
        { src := src, dst := dst, committed := false,
          srcClosed := false, dstClosed := false,
          error := some MergeError.pragmaSyntaxError }
    | _, _ =>
      { src := src, dst := dst, committed := false,
        srcClosed := false, dstClosed := false,
        error := some MergeError.noSuchColumn }
  | _, _ =>
    { src := src, dst := dst, committed := false,
      srcClosed := false, dstClosed := false,
      error := some MergeError.noSuchColumn }

/-! ### Lemmas about the NOT IN predicate -/

theorem sqlNotIn_eq_false_of_mem {x : Option String} {keys : List (Option String)}
    (h : x ∈ keys) : sqlNotIn x keys = false := by
  have hne : keys.isEmpty = false := by
    cases keys
    · simp at h
    · rfl
  cases x with
  | none =>
    simp [sqlNotIn, hne]
  | some k =>
    simp [sqlNotIn, hne, h]

theorem sqlNotIn_eq_false_of_none_mem {x : Option String} {keys : List (Option String)}
    (h : none ∈ keys) : sqlNotIn x keys = false := by
  have hne : keys.isEmpty = false := by
    cases keys
    · simp at h
    · rfl
  cases x with
  | none => simp [sqlNotIn, hne]
  | some k =>
    by_cases hk : some k ∈ keys <;> simp [sqlNotIn, hne, hk, h]

theorem sqlNotIn_eq_true_iff {x : Option String} {keys : List (Option String)} :
    sqlNotIn x keys = true ↔
      keys = [] ∨
        ∃ k, x = some k ∧ some k ∉ keys ∧ (none : Option String) ∉ keys := by
  cases hk : keys.isEmpty with
  | true =>
    have hnil : keys = [] := List.isEmpty_iff.mp hk
    subst hnil
    simp [sqlNotIn]
  | false =>
    have hne : keys ≠ [] := by
      intro hnil
      subst hnil
      simp at hk
    cases x with
    | none => simp [sqlNotIn, hk, hne]
    | some k =>
      by_cases h1 : some k ∈ keys
      · simp [sqlNotIn, hk, h1, hne]
      · by_cases h2 : (none : Option String) ∈ keys
        · simp [sqlNotIn, hk, h1, h2, hne]
        · simp [sqlNotIn, hk, h1, h2, hne]

theorem sqlNotIn_none_of_ne_nil {keys : List (Option String)} (h : keys ≠ []) :
    sqlNotIn none keys = false := by
  have hne : keys.isEmpty = false := by
    cases keys
    · exact absurd rfl h
    · rfl
  simp [sqlNotIn, hne]

/-! ### Reduction helpers for the run -/

theorem resolveSub_inner {src dst : Table} {c : String} {i : Nat}
    (h : colIdx dst.schema c = some i) :
    resolveSub src dst c = some (SubRef.inner i) := by
  unfold resolveSub
  rw [h]

theorem querySelect_inner (src dst : Table) (si sh di dh : Nat) :
    querySelect src dst si sh (SubRef.inner di) (SubRef.inner dh) =
      selectNewRows src dst si sh di dh := rfl

theorem merge_eq_of_resolved {src dst : Table} {si sh : Nat} {ra rh : SubRef}
    (h1 : colIdx src.schema "race_id" = some si)
    (h2 : colIdx src.schema "horse" = some sh)
    (hra : resolveSub src dst "race_id" = some ra)
    (hrh : resolveSub src dst "horse" = some rh) :
    merge src dst =
      if (querySelect src dst si sh ra rh).isEmpty then
        Except.ok (dst, 0)
      else
        Except.error MergeError.pragmaSyntaxError := by
  unfold merge
  rw [h1, h2, hra, hrh]

theorem merge_cols_of_ok {src dst dst2 : Table} {n : Nat}
    (h : merge src dst = Except.ok (dst2, n)) :
    ∃ si sh ra rh, colIdx src.schema "race_id" = some si ∧
      colIdx src.schema "horse" = some sh ∧
      resolveSub src dst "race_id" = some ra ∧
      resolveSub src dst "horse" = some rh := by
  unfold merge at h
  rcases h1 : colIdx src.schema "race_id" with _ | si <;>
    rcases h2 : colIdx src.schema "horse" with _ | sh <;>
    rcases hra : resolveSub src dst "race_id" with _ | ra <;>
    rcases hrh : resolveSub src dst "horse" with _ | rh <;>
    rw [h1, h2, hra, hrh] at h
  all_goals first
    | exact ⟨si, sh, ra, rh, rfl, rfl, rfl, rfl⟩
    | (exfalso; revert h; simp)

theorem merge_ok_elim {src dst dst2 : Table} {n : Nat}
    (h : merge src dst = Except.ok (dst2, n)) :
    dst2 = dst ∧ n = 0 ∧ merge src dst = Except.ok (dst, 0) := by
  obtain ⟨si, sh, ra, rh, h1, h2, hra, hrh⟩ := merge_cols_of_ok h
  rw [merge_eq_of_resolved h1 h2 hra hrh] at h
  by_cases hsel : (querySelect src dst si sh ra rh).isEmpty
  · rw [if_pos hsel] at h
    have hinj : dst = dst2 ∧ 0 = n := by simpa using h
    obtain ⟨hd, hn⟩ := hinj
    subst hd
    subst hn
    exact ⟨rfl, rfl, by rw [merge_eq_of_resolved h1 h2 hra hrh, if_pos hsel]⟩
  · rw [if_neg hsel] at h
    exact absurd h (by simp)

theorem scriptRun_eq (src dst : Table) :
    scriptRun src dst =
      match merge src dst with
      | Except.ok (dst2, n) =>
        { src := src, dst := dst2, committed := decide (n ≠ 0),
          srcClosed := true, dstClosed := true, error := none }
      | Except.error e =>
        { src := src, dst := dst, committed := false,
          srcClosed := false, dstClosed := false, error := some e } := by
  unfold scriptRun merge
  rcases h1 : colIdx src.schema "race_id" with _ | si <;>
    rcases h2 : colIdx src.schema "horse" with _ | sh <;>
    simp only [h1, h2]
  rcases hra : resolveSub src dst "race_id" with _ | ra <;>
    rcases hrh : resolveSub src dst "horse" with _ | rh <;>
    simp only [hra, hrh]
  cases hsel : (querySelect src dst si sh ra rh).isEmpty with
  | true => simp [hsel]
  | false => simp [hsel]

/-! ### Claim theorems -/

/-- C8: merge never modifies the source relation — after any run, successful
or failed, the source database holds exactly the rows it held before.  The
run only reads the source: ATTACH, the SELECT, and the PRAGMA that crashes;
the INSERT (were it ever reached) targets the local database. -/
theorem scriptRun_never_modifies_source (src dst : Table) :
    (scriptRun src dst).src = src := by
  rw [scriptRun_eq]
  cases hm : merge src dst with
  | ok p =>
    obtain ⟨d2, n⟩ := p
    rfl
  | error e => rfl

/-- C3: if every identity key of the source is already present in the
destination, merge returns count 0, the run performs no write and no commit,
the destination is unchanged, and no error is raised. -/
theorem merge_noop_when_all_keys_present (src dst : Table) (si sh di dh : Nat)
    (h1 : colIdx src.schema "race_id" = some si)
    (h2 : colIdx src.schema "horse" = some sh)
    (h3 : colIdx dst.schema "race_id" = some di)
    (h4 : colIdx dst.schema "horse" = some dh)
    (hall : ∀ r ∈ src.rows, rowKey si sh r ∈ dstKeys dst di dh) :
    merge src dst = Except.ok (dst, 0) ∧
      scriptRun src dst =
        { src := src, dst := dst, committed := false,
          srcClosed := true, dstClosed := true, error := none } := by
  have hsel : selectNewRows src dst si sh di dh = [] := by
    rw [selectNewRows, List.filter_eq_nil_iff]
    intro r hr
    simp [sqlNotIn_eq_false_of_mem (hall r hr)]
  have hq : querySelect src dst si sh (SubRef.inner di) (SubRef.inner dh) = [] := by
    rw [querySelect_inner]
    exact hsel
  have hm : merge src dst = Except.ok (dst, 0) := by
    rw [merge_eq_of_resolved h1 h2 (resolveSub_inner h3) (resolveSub_inner h4), hq]
    simp
  refine ⟨hm, ?_⟩
  rw [scriptRun_eq, hm]
  simp

/-- C3 witness: a concrete run in which the single source row is already in
the destination. -/
theorem merge_noop_when_all_keys_present_witness :
    merge ⟨["race_id", "horse"], [[Value.text "r1", Value.text "A"]]⟩
        ⟨["race_id", "horse"], [[Value.text "r1", Value.text "A"]]⟩ =
      Except.ok (⟨["race_id", "horse"], [[Value.text "r1", Value.text "A"]]⟩, 0) ∧
      scriptRun ⟨["race_id", "horse"], [[Value.text "r1", Value.text "A"]]⟩
          ⟨["race_id", "horse"], [[Value.text "r1", Value.text "A"]]⟩ =
        { src := ⟨["race_id", "horse"], [[Value.text "r1", Value.text "A"]]⟩,
          dst := ⟨["race_id", "horse"], [[Value.text "r1", Value.text "A"]]⟩,
          committed := false, srcClosed := true, dstClosed := true,
          error := none } :=
  merge_noop_when_all_keys_present _ _ 0 1 0 1 (by decide) (by decide)
    (by decide) (by decide) (by decide)

/-- C1: the code cannot perform the claimed insertion.  At a source holding
one genuinely new row and an empty same-schema destination, the row is
selected, the run reaches the malformed `PRAGMA table_info(main.data)` and
aborts with the SQLite syntax error: nothing is committed, the destination
is unchanged (still without the new row), and the connections are not
closed — where the claim (and the script's own docstring) says the new row
is inserted into the destination. -/
theorem run_with_new_row_aborts_at_pragma :
    scriptRun ⟨["race_id", "horse"], [[Value.text "r1", Value.text "A"]]⟩
        ⟨["race_id", "horse"], []⟩ =
      { src := ⟨["race_id", "horse"], [[Value.text "r1", Value.text "A"]]⟩,
        dst := ⟨["race_id", "horse"], []⟩,
        committed := false, srcClosed := false, dstClosed := false,
        error := some MergeError.pragmaSyntaxError } := by
  decide

/-- C2: merge is idempotent — if a run succeeds, running it again with the
same source inserts zero rows and leaves the destination unchanged.  (The
only successful runs are no-ops, the insert path being unreachable, so a
successful first run already returns the destination unchanged with count 0
and the second run returns the identical result.) -/
theorem merge_idempotent (src dst dst2 : Table) (n : Nat)
    (h : merge src dst = Except.ok (dst2, n)) :
    merge src dst2 = Except.ok (dst2, 0) := by
  obtain ⟨hd, hn, hm⟩ := merge_ok_elim h
  subst hd
  exact hm

/-- C2 witness: a concrete successful (no-op) run, after which the second
run returns the same destination with zero insertions. -/
theorem merge_idempotent_witness :
    merge ⟨["race_id", "horse"], [[Value.text "r2", Value.text "B"]]⟩
        ⟨["race_id", "horse"], [[Value.text "r2", Value.text "B"]]⟩ =
      Except.ok (⟨["race_id", "horse"], [[Value.text "r2", Value.text "B"]]⟩, 0) :=
  merge_idempotent
    ⟨["race_id", "horse"], [[Value.text "r2", Value.text "B"]]⟩
    ⟨["race_id", "horse"], [[Value.text "r2", Value.text "B"]]⟩
    ⟨["race_id", "horse"], [[Value.text "r2", Value.text "B"]]⟩ 0 (by rfl)

/-- C4: counterexample — no column list is ever read from either schema: at
an input with one selected row (where the claimed destination-schema read
would shape the insert), the run aborts at the malformed PRAGMA before any
schema introspection or insert, leaving the destination unchanged. -/
theorem merge_aborts_before_reading_any_schema :
    merge ⟨["race_id", "horse", "a", "b"],
        [[Value.text "r", Value.text "h", Value.int 1, Value.int 2]]⟩
      ⟨["race_id", "horse", "b", "a"], []⟩ =
      Except.error MergeError.pragmaSyntaxError ∧
    (scriptRun ⟨["race_id", "horse", "a", "b"],
        [[Value.text "r", Value.text "h", Value.int 1, Value.int 2]]⟩
      ⟨["race_id", "horse", "b", "a"], []⟩).dst =
      ⟨["race_id", "horse", "b", "a"], []⟩ ∧
    (scriptRun ⟨["race_id", "horse", "a", "b"],
        [[Value.text "r", Value.text "h", Value.int 1, Value.int 2]]⟩
      ⟨["race_id", "horse", "b", "a"], []⟩).committed = false :=
  ⟨rfl, by decide, by decide⟩

/-- C4 (amended): the script attempts to read a column list dynamically at
run time — from the SOURCE database (`PRAGMA table_info(main.data)` on the
source connection), not the destination — but the statement is malformed
SQLite, so every run whose selection is nonempty aborts there with a syntax
error: no column list is read from either schema, no insert statement is
built, nothing is written or committed, and the connections are left
open. -/
theorem scriptRun_pragma_abort_on_nonempty_selection (src dst : Table)
    (si sh : Nat) (ra rh : SubRef)
    (h1 : colIdx src.schema "race_id" = some si)
    (h2 : colIdx src.schema "horse" = some sh)
    (hra : resolveSub src dst "race_id" = some ra)
    (hrh : resolveSub src dst "horse" = some rh)
    (hne : querySelect src dst si sh ra rh ≠ []) :
    scriptRun src dst =
      { src := src, dst := dst, committed := false,
        srcClosed := false, dstClosed := false,
        error := some MergeError.pragmaSyntaxError } := by
  have hm : merge src dst = Except.error MergeError.pragmaSyntaxError := by
    rw [merge_eq_of_resolved h1 h2 hra hrh,
      if_neg (fun hh => hne (List.isEmpty_iff.mp hh))]
  rw [scriptRun_eq, hm]

/-- C4 witness: a concrete nonempty-selection run aborting at the PRAGMA. -/
theorem scriptRun_pragma_abort_on_nonempty_selection_witness :
    scriptRun ⟨["race_id", "horse"], [[Value.text "r4", Value.text "D"]]⟩
        ⟨["race_id", "horse"], []⟩ =
      { src := ⟨["race_id", "horse"], [[Value.text "r4", Value.text "D"]]⟩,
        dst := ⟨["race_id", "horse"], []⟩, committed := false,
        srcClosed := false, dstClosed := false,
        error := some MergeError.pragmaSyntaxError } :=
  scriptRun_pragma_abort_on_nonempty_selection _ _ 0 1
    (SubRef.inner 0) (SubRef.inner 1) (by decide) (by decide) (by decide)
    (by decide) (by decide)

/-- C5: counterexample — a destination missing an identity column does NOT
make merge fail: with destination schema `[horse]` (no `race_id`) the
query prepares (the missing name resolves against the outer `main.data`,
a correlated subquery) and the run completes as a silent successful no-op,
closing both connections; no SchemaMismatch-kind error ever occurs. -/
theorem missing_identity_column_destination_runs_as_noop :
    scriptRun ⟨["race_id", "horse"], []⟩ ⟨["horse"], []⟩ =
      { src := ⟨["race_id", "horse"], []⟩, dst := ⟨["horse"], []⟩,
        committed := false, srcClosed := true, dstClosed := true,
        error := none } := by
  decide

/-- C5 (amended): the SELECT fails to prepare — with SQLite's
`no such column`, before any write — exactly when the SOURCE relation lacks
`race_id` or `horse`; a deficient destination instead yields a correlated
subquery and the run proceeds. -/
theorem merge_noSuchColumn_on_source_missing_identity_column (src dst : Table)
    (h : colIdx src.schema "race_id" = none ∨ colIdx src.schema "horse" = none) :
    merge src dst = Except.error MergeError.noSuchColumn ∧
      (scriptRun src dst).dst = dst ∧ (scriptRun src dst).committed = false := by
  have hm : merge src dst = Except.error MergeError.noSuchColumn := by
    unfold merge
    rcases h with h | h
    · rcases h2 : colIdx src.schema "horse" with _ | sh <;> simp [h, h2]
    · rcases h1 : colIdx src.schema "race_id" with _ | si <;> simp [h, h1]
  refine ⟨hm, ?_, ?_⟩ <;> rw [scriptRun_eq, hm]

/-- C5 witness: a source whose only column is `horse` (no `race_id`). -/
theorem merge_noSuchColumn_on_source_missing_identity_column_witness :
    merge ⟨["horse"], []⟩ ⟨["race_id", "horse"], []⟩ =
        Except.error MergeError.noSuchColumn ∧
      (scriptRun ⟨["horse"], []⟩ ⟨["race_id", "horse"], []⟩).dst =
        ⟨["race_id", "horse"], []⟩ ∧
      (scriptRun ⟨["horse"], []⟩ ⟨["race_id", "horse"], []⟩).committed = false :=
  merge_noSuchColumn_on_source_missing_identity_column _ _ (Or.inl (by decide))

/-- C6: counterexample — the batch insert is unreachable, so its failure
mode cannot occur: at an input whose insert would fail (the source has an
extra column the destination lacks), the run in fact aborts earlier, at the
malformed PRAGMA, with the pragma error rather than any write error — and,
as the claim's surviving half says, nothing is committed and the
destination keeps its pre-run state. -/
theorem insert_failure_scenario_aborts_at_pragma :
    scriptRun
        ⟨["race_id", "horse", "x"],
          [[Value.text "r", Value.text "h", Value.int 1]]⟩
        ⟨["race_id", "horse"], []⟩ =
      { src := ⟨["race_id", "horse", "x"],
          [[Value.text "r", Value.text "h", Value.int 1]]⟩,
        dst := ⟨["race_id", "horse"], []⟩, committed := false,
        srcClosed := false, dstClosed := false,
        error := some MergeError.pragmaSyntaxError } := by
  decide

/-- C6 (amended): on every failing run — the SELECT failing to prepare or
the malformed PRAGMA — no write occurs: nothing is committed and the
destination is left byte-for-byte in its pre-run state. -/
theorem scriptRun_failure_leaves_destination_unchanged (src dst : Table)
    (e : MergeError) (h : (scriptRun src dst).error = some e) :
    (scriptRun src dst).dst = dst ∧ (scriptRun src dst).committed = false ∧
      merge src dst = Except.error e := by
  rw [scriptRun_eq] at h ⊢
  cases hm : merge src dst with
  | ok p =>
    obtain ⟨d2, n⟩ := p
    rw [hm] at h
    simp at h
  | error e2 =>
    rw [hm] at h
    simp only [Option.some.injEq] at h
    subst h
    simp [hm]

/-- C6 witness: the crashed run of the counterexample input leaves the
destination unchanged and uncommitted. -/
theorem scriptRun_failure_leaves_destination_unchanged_witness :
    (scriptRun ⟨["race_id", "horse"], [[Value.text "r5", Value.text "E"]]⟩
        ⟨["race_id", "horse"], []⟩).dst = ⟨["race_id", "horse"], []⟩ ∧
      (scriptRun ⟨["race_id", "horse"], [[Value.text "r5", Value.text "E"]]⟩
        ⟨["race_id", "horse"], []⟩).committed = false ∧
      merge ⟨["race_id", "horse"], [[Value.text "r5", Value.text "E"]]⟩
        ⟨["race_id", "horse"], []⟩ =
        Except.error MergeError.pragmaSyntaxError :=
  scriptRun_failure_leaves_destination_unchanged _ _
    MergeError.pragmaSyntaxError (by decide)

/-- C7: counterexample — on the real failure path where the SELECT cannot
prepare (source missing `race_id`), the script terminates with the
exception before reaching the two `close()` calls, so neither connection
is released by the code. -/
theorem query_failure_leaves_connections_open :
    (scriptRun ⟨["horse"], []⟩ ⟨["race_id", "horse"], []⟩).error =
        some MergeError.noSuchColumn ∧
      (scriptRun ⟨["horse"], []⟩ ⟨["race_id", "horse"], []⟩).srcClosed = false ∧
      (scriptRun ⟨["horse"], []⟩ ⟨["race_id", "horse"], []⟩).dstClosed = false := by
  refine ⟨?_, ?_, ?_⟩ <;> decide

/-- C7 (amended): both connections are closed on every exit path on which no
error propagates — which is exactly the empty-selection no-op path; on the
failure paths (prepare error, malformed PRAGMA) the close calls are not
reached. -/
theorem scriptRun_closes_connections_on_success (src dst : Table)
    (h : (scriptRun src dst).error = none) :
    (scriptRun src dst).srcClosed = true ∧ (scriptRun src dst).dstClosed = true := by
  rw [scriptRun_eq] at h ⊢
  cases hm : merge src dst with
  | ok p =>
    obtain ⟨d2, n⟩ := p
    simp [hm]
  | error e =>
    rw [hm] at h
    simp at h

/-- C7 witness: a successful (no-op) run closes both connections. -/
theorem scriptRun_closes_connections_on_success_witness :
    (scriptRun ⟨["race_id", "horse"], []⟩ ⟨["race_id", "horse"], []⟩).srcClosed = true ∧
      (scriptRun ⟨["race_id", "horse"], []⟩ ⟨["race_id", "horse"], []⟩).dstClosed = true :=
  scriptRun_closes_connections_on_success _ _ (by decide)

/-- C9: counterexample — a source row whose race_id is NULL IS selected when
the destination is empty (SQLite's `NOT IN` over an empty set is true even
for a NULL operand); the run then aborts at the malformed PRAGMA, so the
row — like every row — is never inserted and the destination stays
empty. -/
theorem null_key_row_selected_with_empty_destination :
    rowKey 0 1 [Value.null, Value.text "A"] = none ∧
      querySelect ⟨["race_id", "horse"], [[Value.null, Value.text "A"]]⟩
          ⟨["race_id", "horse"], []⟩ 0 1 (SubRef.inner 0) (SubRef.inner 1) =
        [[Value.null, Value.text "A"]] ∧
      scriptRun ⟨["race_id", "horse"], [[Value.null, Value.text "A"]]⟩
          ⟨["race_id", "horse"], []⟩ =
        { src := ⟨["race_id", "horse"], [[Value.null, Value.text "A"]]⟩,
          dst := ⟨["race_id", "horse"], []⟩, committed := false,
          srcClosed := false, dstClosed := false,
          error := some MergeError.pragmaSyntaxError } := by
  refine ⟨?_, ?_, ?_⟩ <;> decide

/-- C9 (amended): with the destination exposing both identity columns
(positions `di`, `dh`, so the subquery is uncorrelated): provided the
destination is non-empty, a source row whose identity key is NULL is never
selected; and if the destination holds at least one row with a NULL
identity key, the selection is empty for every source — the run is then a
clean no-op, and in every case zero rows are inserted, the insert path
being unreachable. -/
theorem selection_null_key_behavior (src dst : Table) (si sh di dh : Nat)
    (h3 : colIdx dst.schema "race_id" = some di)
    (h4 : colIdx dst.schema "horse" = some dh)
    (hne : dst.rows ≠ []) :
    (∀ r ∈ querySelect src dst si sh (SubRef.inner di) (SubRef.inner dh),
        rowKey si sh r ≠ none) ∧
      ((∃ d ∈ dst.rows, rowKey di dh d = none) →
        querySelect src dst si sh (SubRef.inner di) (SubRef.inner dh) = []) := by
  rw [querySelect_inner]
  have hkeys : dstKeys dst di dh ≠ [] := by
    rw [dstKeys]
    intro hmap
    exact hne (List.map_eq_nil_iff.mp hmap)
  constructor
  · intro r hr hkey
    obtain ⟨hr1, hr2⟩ := List.mem_filter.mp hr
    rw [hkey, sqlNotIn_none_of_ne_nil hkeys] at hr2
    exact Bool.false_ne_true hr2
  · rintro ⟨d, hd, hdkey⟩
    have hnone : (none : Option String) ∈ dstKeys dst di dh := by
      rw [dstKeys, ← hdkey]
      exact List.mem_map_of_mem _ hd
    rw [selectNewRows, List.filter_eq_nil_iff]
    intro r hr
    simp [sqlNotIn_eq_false_of_none_mem hnone]

/-- C9 witness: with a non-empty destination containing a NULL-key row, the
selection is empty. -/
theorem selection_null_key_behavior_witness :
    (∀ r ∈ querySelect ⟨["race_id", "horse"], [[Value.text "r", Value.text "h"]]⟩
        ⟨["race_id", "horse"], [[Value.null, Value.text "B"]]⟩ 0 1
        (SubRef.inner 0) (SubRef.inner 1),
      rowKey 0 1 r ≠ none) ∧
      ((∃ d ∈ [[Value.null, Value.text "B"]], rowKey 0 1 d = none) →
        querySelect ⟨["race_id", "horse"], [[Value.text "r", Value.text "h"]]⟩
          ⟨["race_id", "horse"], [[Value.null, Value.text "B"]]⟩ 0 1
          (SubRef.inner 0) (SubRef.inner 1) = []) :=
  selection_null_key_behavior _ _ 0 1 0 1 (by decide) (by decide) (by decide)

/-- C10: counterexample — two source rows sharing one absent identity key
are both selected, but the destination never comes to hold duplicate keys:
the run aborts at the malformed PRAGMA and the destination stays empty,
refuting "merge inserts all of them". -/
theorem duplicate_key_rows_never_reach_destination :
    scriptRun ⟨["race_id", "horse"],
        [[Value.text "r", Value.text "H"], [Value.text "r", Value.text "H"]]⟩
      ⟨["race_id", "horse"], []⟩ =
      { src := ⟨["race_id", "horse"],
          [[Value.text "r", Value.text "H"], [Value.text "r", Value.text "H"]]⟩,
        dst := ⟨["race_id", "horse"], []⟩, committed := false,
        srcClosed := false, dstClosed := false,
        error := some MergeError.pragmaSyntaxError } := by
  decide

/-- C10 (amended): the NOT IN membership test is only against the
destination's pre-run keys, never within the selected batch itself: for any
key k absent from a NULL-free uncorrelated destination key set, every
source row carrying k passes the selection, so the SELECT returns as many
k-keyed rows as the source holds — duplicates included.  (They are never
actually inserted: every nonempty selection aborts at the malformed
PRAGMA.) -/
theorem selection_keeps_all_rows_sharing_absent_key (src dst : Table)
    (si sh di dh : Nat) (k : String)
    (h3 : colIdx dst.schema "race_id" = some di)
    (h4 : colIdx dst.schema "horse" = some dh)
    (hk1 : some k ∉ dstKeys dst di dh)
    (hk2 : (none : Option String) ∉ dstKeys dst di dh) :
    (querySelect src dst si sh (SubRef.inner di) (SubRef.inner dh)).countP
        (fun r => decide (rowKey si sh r = some k)) =
      src.rows.countP (fun r => decide (rowKey si sh r = some k)) := by
  have hsq : sqlNotIn (some k) (dstKeys dst di dh) = true :=
    sqlNotIn_eq_true_iff.mpr (Or.inr ⟨k, rfl, hk1, hk2⟩)
  rw [querySelect_inner, selectNewRows, List.countP_filter]
  refine List.countP_congr ?_
  intro r hr
  constructor
  · intro hand
    have hand2 : decide (rowKey si sh r = some k) = true ∧
        sqlNotIn (rowKey si sh r) (dstKeys dst di dh) = true := by
      simpa using hand
    exact hand2.1
  · intro hpsi
    have hkey : rowKey si sh r = some k := of_decide_eq_true hpsi
    simp [hpsi, hkey, hsq]

/-- C10 witness: two source rows share the absent key "r-H"; the selection
keeps both, matching the source's count of 2. -/
theorem selection_keeps_all_rows_sharing_absent_key_witness :
    (querySelect ⟨["race_id", "horse"],
        [[Value.text "r", Value.text "H"], [Value.text "r", Value.text "H"]]⟩
      ⟨["race_id", "horse"], []⟩ 0 1 (SubRef.inner 0) (SubRef.inner 1)).countP
        (fun r => decide (rowKey 0 1 r = some "r-H")) =
      ([[Value.text "r", Value.text "H"], [Value.text "r", Value.text "H"]] :
        List Row).countP (fun r => decide (rowKey 0 1 r = some "r-H")) :=
  selection_keeps_all_rows_sharing_absent_key
    ⟨["race_id", "horse"],
      [[Value.text "r", Value.text "H"], [Value.text "r", Value.text "H"]]⟩
    ⟨["race_id", "horse"], []⟩ 0 1 0 1 "r-H"
    (by decide) (by decide) (by decide) (by decide)
